import Mathlib

/-!
Shallow embedding of the Substrate kitties runtime module
(`src/kitties/runtime/src/substratekitties.rs`).

Modelling conventions:
* `T::Hash` values (token identifiers and DNA payloads) are byte lists
  (`List Nat`); `T::AccountId` and `T::Balance` are `Nat`.
* `u64` counters are `Nat`; the source performs `checked_add(1)` /
  `checked_sub(1)` on them, modelled with the explicit `2 ^ 64` bound.
* Substrate storage maps are total functions; `Option` marks maps whose
  entries can be absent or removed (`Kitties`, `KittyOwner`,
  `AllKittiesArray`, `OwnedKittiesArray`); index maps declared without
  `Option` in the source default to `0` on absent keys, as substrate
  `StorageMap` does.
* Each dispatchable returns its `Result` together with the storage state
  after the call.  In this (pre-frame) substrate version an `Err` return
  does not roll back earlier writes; in this module every possible error
  return happens before the first write, so the state paired with an
  error is the caller's state at the point of the early return.
* The external randomness/hash derivation of `create_kitty` and
  `breed_kitty` (`(random_seed, sender, nonce).using_encoded(hash)`) is an
  external collaborator and is passed in as the `randomHash` argument.
* The currency collaborator used by `buy_kitty`
  (`<balances::Module<T> as Currency<_>>::transfer`) is passed in as a
  function argument returning its own `Result`.
-/

namespace SubstrateKitties

/-- `T::AccountId` (the test runtime instantiates it as `u64`). -/
abbrev AccountId := Nat

/-- `T::Hash` as its byte representation (`H256` in the test runtime). -/
abbrev Hash := List Nat

/-- `T::Balance` (the test runtime instantiates it as `u64`). -/
abbrev Balance := Nat

/-- The `Kitty<Hash, Balance>` struct of the source. -/
structure Kitty where
  id : Hash
  dna : Hash
  price : Balance
  gen : Nat
  deriving DecidableEq, Repr

/-- The events declared in the source's `decl_event!` block. -/
inductive KEvent where
  | Created : AccountId → Hash → KEvent
  | PriceSet : AccountId → Hash → Balance → KEvent
  | Transferred : AccountId → AccountId → Hash → KEvent
  | Bought : AccountId → AccountId → Hash → Balance → KEvent
  deriving DecidableEq, Repr

/-- The module's storage (`decl_storage!` block), plus the event sink. -/
structure KittyState where
  kitties : Hash → Option Kitty
  kittyOwner : Hash → Option AccountId
  allKittiesArray : Nat → Option Hash
  allKittiesCount : Nat
  allKittiesIndex : Hash → Nat
  ownedKittiesArray : AccountId × Nat → Option Hash
  ownedKittiesCount : AccountId → Nat
  ownedKittiesIndex : Hash → Nat
  nonce : Nat
  events : List KEvent

/-- One more than the largest `u64` value. -/
def U64LIMIT : Nat := 2 ^ 64

/-- `u64::checked_add(1)`. -/
def checkedAdd1 (n : Nat) : Option Nat :=
  if n + 1 < U64LIMIT then some (n + 1) else none

/-- `u64::checked_sub(1)`. -/
def checkedSub1 (n : Nat) : Option Nat :=
  if n = 0 then none else some (n - 1)

/-- Point update of a storage map (`StorageMap::insert`; with `none` as the
value it is `StorageMap::remove`). -/
def upd {α β : Type} [DecidableEq α] (f : α → β) (k : α) (v : β) : α → β :=
  fun x => if x = k then v else f x

/-- `H256::default()`: the zero hash (32 zero bytes). -/
def defaultHash : Hash := List.replicate 32 0

/-- `Kitty::default()`, what a non-`Option` storage map read returns on an
absent key. -/
def defaultKitty : Kitty :=
  { id := defaultHash, dna := defaultHash, price := 0, gen := 0 }

/-- `Self::kitty(kitty_id)`: read of the `Kitties` map (defaulting). -/
def getKitty (s : KittyState) (kittyId : Hash) : Kitty :=
  (s.kitties kittyId).getD defaultKitty

/-- The empty registry: every map empty, every counter zero. -/
def emptyState : KittyState where
  kitties := fun _ => none
  kittyOwner := fun _ => none
  allKittiesArray := fun _ => none
  allKittiesCount := 0
  allKittiesIndex := fun _ => 0
  ownedKittiesArray := fun _ => none
  ownedKittiesCount := fun _ => 0
  ownedKittiesIndex := fun _ => 0
  nonce := 0
  events := []

/-- Dispatch result type (`support::dispatch::Result`). -/
abbrev DispatchResult := Except String Unit

/-- `Module::mint` (lines 244–277 of the source): checked increments of the
owner's count and the global count, existence check against `KittyOwner`,
then the writes.  The `Created` event deposit at line 274 is commented out
in the source, so no event is emitted. -/
def mint (s : KittyState) (toAcct : AccountId) (kittyId : Hash) (newKitty : Kitty) :
    DispatchResult × KittyState :=
  let ownedKittyCount := s.ownedKittiesCount toAcct
  match checkedAdd1 ownedKittyCount with
  | none => (Except.error "Overflow adding a new kitty", s)
  | some newOwnedKittyCount =>
    let allKittiesCount := s.allKittiesCount
    match checkedAdd1 allKittiesCount with
    | none => (Except.error "Overflow adding a new kitty", s)
    | some newAllKittiesCount =>
      match s.kittyOwner kittyId with
      | some _ => (Except.error "Kitty already exists", s)
      | none =>
        (Except.ok (),
          { s with
            kitties := upd s.kitties kittyId (some newKitty)
            kittyOwner := upd s.kittyOwner kittyId (some toAcct)
            allKittiesArray := upd s.allKittiesArray allKittiesCount (some kittyId)
            allKittiesCount := newAllKittiesCount
            allKittiesIndex := upd s.allKittiesIndex kittyId allKittiesCount
            ownedKittiesArray := upd s.ownedKittiesArray (toAcct, ownedKittyCount) (some kittyId)
            ownedKittiesCount := upd s.ownedKittiesCount toAcct newOwnedKittyCount
            ownedKittiesIndex := upd s.ownedKittiesIndex kittyId ownedKittyCount })

/-- `Module::transfer_from` (lines 279–330 of the source): ownership check,
checked count arithmetic, swap-and-pop on the source owner's array, then
the sequential writes exactly in source order (note the final two
`OwnedKittiesCount` writes: first `from`, then `to`). -/
def transfer_from (s : KittyState) (fromAcct toAcct : AccountId) (kittyId : Hash) :
    DispatchResult × KittyState :=
  match s.kittyOwner kittyId with
  | none => (Except.error "No owner for this kitty", s)
  | some owner =>
    if owner = fromAcct then
      let ownedKittyCountFrom := s.ownedKittiesCount fromAcct
      let ownedKittyCountTo := s.ownedKittiesCount toAcct
      match checkedAdd1 ownedKittyCountTo with
      | none => (Except.error "Overflow adding a new kitty to account balance", s)
      | some newOwnedKittyCountTo =>
        match checkedSub1 ownedKittyCountFrom with
        | none => (Except.error "Overflow subtracing a new kitty to account balance", s)
        | some newOwnedKittyCountFrom =>
          let kittyIndex := s.ownedKittiesIndex kittyId
          let s1 :=
            if kittyIndex ≠ newOwnedKittyCountFrom then
              let lastKittyId :=
                (s.ownedKittiesArray (fromAcct, newOwnedKittyCountFrom)).getD defaultHash
              { s with
                ownedKittiesArray :=
                  upd s.ownedKittiesArray (fromAcct, kittyIndex) (some lastKittyId)
                ownedKittiesIndex := upd s.ownedKittiesIndex lastKittyId kittyIndex }
            else s
          let s2 := { s1 with kittyOwner := upd s1.kittyOwner kittyId (some toAcct) }
          let s3 := { s2 with
            ownedKittiesIndex := upd s2.ownedKittiesIndex kittyId ownedKittyCountTo }
          let s4 := { s3 with
            ownedKittiesArray :=
              upd s3.ownedKittiesArray (fromAcct, newOwnedKittyCountFrom) none }
          let s5 := { s4 with
            ownedKittiesArray :=
              upd s4.ownedKittiesArray (toAcct, ownedKittyCountTo) (some kittyId) }
          let s6 := { s5 with
            ownedKittiesCount := upd s5.ownedKittiesCount fromAcct newOwnedKittyCountFrom }
          let s7 := { s6 with
            ownedKittiesCount := upd s6.ownedKittiesCount toAcct newOwnedKittyCountTo }
          (Except.ok (),
            { s7 with events := s7.events ++ [KEvent.Transferred fromAcct toAcct kittyId] })
    else (Except.error "From account is not the owner", s)

/-- The `transfer` dispatchable (lines 137–146): owner lookup, ownership
check, then `transfer_from`. -/
def transfer (s : KittyState) (sender toAcct : AccountId) (kittyId : Hash) :
    DispatchResult × KittyState :=
  match s.kittyOwner kittyId with
  | none => (Except.error "No owner for this kitty", s)
  | some owner =>
    if owner = sender then transfer_from s sender toAcct kittyId
    else (Except.error "You do not own this kitty", s)

/-- The `create_kitty` dispatchable (lines 92–110).  `randomHash` stands
for the externally hashed `(random_seed, sender, nonce)` tuple.  The nonce
is incremented only after `mint` succeeds (the `?` on `mint` returns
early). -/
def create_kitty (s : KittyState) (sender : AccountId) (randomHash : Hash) :
    DispatchResult × KittyState :=
  let newKitty : Kitty := { id := randomHash, dna := randomHash, price := 0, gen := 0 }
  match mint s sender randomHash newKitty with
  | (Except.error e, s1) => (Except.error e, s1)
  | (Except.ok _, s1) => (Except.ok (), { s1 with nonce := s1.nonce + 1 })

/-- The `set_price` dispatchable (lines 111–135). -/
def set_price (s : KittyState) (sender : AccountId) (kittyId : Hash) (newPrice : Balance) :
    DispatchResult × KittyState :=
  match s.kitties kittyId with
  | none => (Except.error "This cat does not exist", s)
  | some _ =>
    match s.kittyOwner kittyId with
    | none => (Except.error "No owner for this kitty", s)
    | some owner =>
      if owner = sender then
        let kitty := getKitty s kittyId
        let s1 := { s with
          kitties := upd s.kitties kittyId (some { kitty with price := newPrice }) }
        (Except.ok (),
          { s1 with events := s1.events ++ [KEvent.PriceSet sender kittyId newPrice] })
      else (Except.error "You do not own this cat", s)

/-- The gene-splicing loop of `breed_kitty` (lines 210–215): start from
parent 1's DNA and, walking the zip of parent 2's DNA with the fresh
random hash, overwrite position `i` with parent 2's byte when the random
byte at `i` is even. -/
def spliceDna : Hash → Hash → Hash → Hash
  | dna1, dna2El :: dna2Rest, r :: rRest =>
    match dna1 with
    | [] => []
    | b :: bs => (if r % 2 = 0 then dna2El else b) :: spliceDna bs dna2Rest rRest
  | dna1, _, _ => dna1

/-- The `breed_kitty` dispatchable (lines 194–238): existence checks on
both parents, gene splicing, generation `max(gen1, gen2) + 1`, then `mint`
and (only after a successful mint) the nonce increment. -/
def breed_kitty (s : KittyState) (sender : AccountId) (kittyId1 kittyId2 : Hash)
    (randomHash : Hash) : DispatchResult × KittyState :=
  match s.kitties kittyId1 with
  | none => (Except.error "Kitty 1 does not exist", s)
  | some _ =>
    match s.kitties kittyId2 with
    | none => (Except.error "Kitty 2 does not exist", s)
    | some _ =>
      let kitty1 := getKitty s kittyId1
      let kitty2 := getKitty s kittyId2
      let finalDna := spliceDna kitty1.dna kitty2.dna randomHash
      let newKitty : Kitty :=
        { id := randomHash
          dna := finalDna
          price := 0
          gen := max kitty1.gen kitty2.gen + 1 }
      match mint s sender randomHash newKitty with
      | (Except.error e, s1) => (Except.error e, s1)
      | (Except.ok _, s1) => (Except.ok (), { s1 with nonce := s1.nonce + 1 })

/-- Outcome of `buy_kitty`: a clean `Result`, or the abort caused by the
`expect` on `transfer_from` firing (a runtime panic/trap). -/
inductive DispatchOutcome where
  | ok : DispatchOutcome
  | err : String → DispatchOutcome
  | trap : DispatchOutcome
  deriving DecidableEq, Repr

/-- The `buy_kitty` dispatchable (lines 148–192).  `currencyTransfer` is
the external `Currency::transfer` collaborator; its failure propagates via
`?` before any registry write.  After the currency moved, the source
unwraps `transfer_from` with `expect(...)`: a failure there is modelled as
`DispatchOutcome.trap`. -/
def buy_kitty (currencyTransfer : AccountId → AccountId → Balance → Except String Unit)
    (s : KittyState) (sender : AccountId) (kittyId : Hash) (maxPrice : Balance) :
    DispatchOutcome × KittyState :=
  match s.kitties kittyId with
  | none => (DispatchOutcome.err "This cat does not exist", s)
  | some _ =>
    match s.kittyOwner kittyId with
    | none => (DispatchOutcome.err "No owner for this kitty", s)
    | some owner =>
      if owner = sender then (DispatchOutcome.err "Cat already owned", s)
      else
        let kitty := getKitty s kittyId
        let price := kitty.price
        if price = 0 then
          (DispatchOutcome.err "The cat you want to buy is not for sale", s)
        else if price ≤ maxPrice then
          if price ≤ maxPrice then
            match currencyTransfer sender owner price with
            | Except.error e => (DispatchOutcome.err e, s)
            | Except.ok _ =>
              match transfer_from s owner sender kittyId with
              | (Except.error _, _) => (DispatchOutcome.trap, s)
              | (Except.ok _, s1) =>
                let s2 := { s1 with
                  kitties := upd s1.kitties kittyId (some { kitty with price := 0 }) }
                (DispatchOutcome.ok,
                  { s2 with
                    events := s2.events ++ [KEvent.Bought sender owner kittyId price] })
          else (DispatchOutcome.err "Kitty price is above the max price submitted", s)
        else
          (DispatchOutcome.err "The cat you want to buy costs more than your max price", s)

/-! ## Helper lemmas -/

/-- `mint` never touches the nonce, on success or failure. -/
theorem mint_nonce (s : KittyState) (toAcct : AccountId) (kittyId : Hash) (nk : Kitty) :
    (mint s toAcct kittyId nk).2.nonce = s.nonce := by
  rcases h1 : checkedAdd1 (s.ownedKittiesCount toAcct) with _ | n1
  · simp [mint, h1]
  · rcases h2 : checkedAdd1 s.allKittiesCount with _ | n2
    · simp [mint, h1, h2]
    · rcases h3 : s.kittyOwner kittyId with _ | o
      · simp [mint, h1, h2, h3]
      · simp [mint, h1, h2, h3]

/-- `mint` never appends to the event sink (the `Created` deposit is
commented out in the source). -/
theorem mint_events (s : KittyState) (toAcct : AccountId) (kittyId : Hash) (nk : Kitty) :
    (mint s toAcct kittyId nk).2.events = s.events := by
  rcases h1 : checkedAdd1 (s.ownedKittiesCount toAcct) with _ | n1
  · simp [mint, h1]
  · rcases h2 : checkedAdd1 s.allKittiesCount with _ | n2
    · simp [mint, h1, h2]
    · rcases h3 : s.kittyOwner kittyId with _ | o
      · simp [mint, h1, h2, h3]
      · simp [mint, h1, h2, h3]

/-- A successful `mint` stores the new kitty record under its identifier. -/
theorem mint_ok_kitty (s : KittyState) (toAcct : AccountId) (kittyId : Hash) (nk : Kitty)
    (hOk : (mint s toAcct kittyId nk).1 = Except.ok ()) :
    (mint s toAcct kittyId nk).2.kitties kittyId = some nk := by
  rcases h1 : checkedAdd1 (s.ownedKittiesCount toAcct) with _ | n1
  · simp [mint, h1] at hOk
  · rcases h2 : checkedAdd1 s.allKittiesCount with _ | n2
    · simp [mint, h1, h2] at hOk
    · rcases h3 : s.kittyOwner kittyId with _ | o
      · simp [mint, h1, h2, h3, upd]
      · simp [mint, h1, h2, h3] at hOk

/-- Byte-level description of the gene-splicing loop: at every position
covered by the random value, the child byte is parent 2's byte when the
random byte is even and parent 1's byte otherwise. -/
theorem spliceDna_get (dna1 dna2 r : Hash) (h1 : dna1.length = r.length)
    (h2 : dna2.length = r.length) :
    ∀ i, i < r.length →
      (spliceDna dna1 dna2 r).get? i =
        if (r.get? i).getD 1 % 2 = 0 then dna2.get? i else dna1.get? i := by
  induction r generalizing dna1 dna2 with
  | nil =>
    intro i hi
    simp only [List.length_nil] at hi
    omega
  | cons x xs ih =>
    cases dna1 with
    | nil => simp at h1
    | cons b bs =>
      cases dna2 with
      | nil => simp at h2
      | cons d ds =>
        intro i hi
        cases i with
        | zero =>
          by_cases hx : x % 2 = 0 <;> simp [spliceDna, hx]
        | succ j =>
          simp only [spliceDna, List.get?]
          exact ih bs ds (by simpa using h1) (by simpa using h2) j (by
            simpa [Nat.succ_lt_succ_iff] using hi)

/-- `transfer_from` succeeds whenever the token is owned by `fromAcct`,
the destination count can be incremented without `u64` overflow, and the
source count is nonzero. -/
theorem transfer_from_ok (s : KittyState) (fromAcct toAcct : AccountId) (kittyId : Hash)
    (hOwn : s.kittyOwner kittyId = some fromAcct)
    (hAdd : s.ownedKittiesCount toAcct + 1 < U64LIMIT)
    (hSub : s.ownedKittiesCount fromAcct ≠ 0) :
    ∃ s1, transfer_from s fromAcct toAcct kittyId = (Except.ok (), s1) := by
  simp only [transfer_from, hOwn, if_pos rfl, checkedAdd1, checkedSub1,
    if_pos hAdd, if_neg hSub]
  exact ⟨_, rfl⟩

/-! ## Claim C1 -/

/-- The registry state after: create a kitty with identifier `[1]` for
account `1` from the empty registry, then transfer it from account `1` to
account `1` itself (destination equals current owner). -/
def c1State : KittyState :=
  (transfer (create_kitty emptyState 1 [1]).2 1 1 [1]).2

/-- Claim C1: the owned-kitty bookkeeping invariant is violated by the
code on a transfer whose destination equals the current owner.  After
minting token `[1]` for account `1` and then self-transferring it, the
call reports success, yet account `1`'s owned count is `2` while it owns
exactly the one token `[1]`, and the forward map has a gap: position `0`
is empty while the token sits at position `1`.  The double write
`OwnedKittiesCount[from] := c - 1; OwnedKittiesCount[to] := c + 1` with
`from = to` clobbers the first write, and the pop-then-insert leaves the
hole. -/
theorem c1_self_transfer_breaks_invariant :
    (transfer (create_kitty emptyState 1 [1]).2 1 1 [1]).1 = Except.ok () ∧
    c1State.ownedKittiesCount 1 = 2 ∧
    c1State.ownedKittiesArray (1, 0) = none ∧
    c1State.ownedKittiesArray (1, 1) = some [1] ∧
    c1State.kittyOwner [1] = some 1 ∧
    (∀ t : Hash, c1State.kittyOwner t = some 1 → t = [1]) := by
  refine ⟨rfl, rfl, rfl, rfl, rfl, ?_⟩
  intro t ht
  by_cases h : t = [1]
  · exact h
  · exfalso
    have hval : c1State.kittyOwner t = none := by
      show (if t = [1] then some 1 else if t = [1] then some 1 else none) = none
      rw [if_neg h, if_neg h]
    rw [hval] at ht
    exact Option.noConfusion ht

/-! ## Claim C2 -/

/-- The registry state after: create kitty `[1]` (token A) for account `1`
(owner O1), create kitty `[2]` (token B) for account `1`, then transfer
`[1]` from account `1` to account `2` (owner O2). -/
def c2State : KittyState :=
  (transfer (create_kitty (create_kitty emptyState 1 [1]).2 1 [2]).2 1 2 [1]).2

/-- Claim C2: after mint A for O1, mint B for O1, transfer A from O1 to
O2: O1's owned count is 1 with B swapped into position 0 (and position 1
cleared), O2's owned count is 1 with A at position 0, and the global count
is 2. -/
theorem c2_mint_mint_transfer_scenario :
    (transfer (create_kitty (create_kitty emptyState 1 [1]).2 1 [2]).2 1 2 [1]).1 =
      Except.ok () ∧
    c2State.ownedKittiesCount 1 = 1 ∧
    c2State.ownedKittiesArray (1, 0) = some [2] ∧
    c2State.ownedKittiesArray (1, 1) = none ∧
    c2State.ownedKittiesCount 2 = 1 ∧
    c2State.ownedKittiesArray (2, 0) = some [1] ∧
    c2State.allKittiesCount = 2 :=
  ⟨rfl, rfl, rfl, rfl, rfl, rfl, rfl⟩

/-! ## Claim C3 -/

/-- Registry state holding one kitty with identifier `[1]` (created by
account `1`); its nonce is `1`. -/
def c3State : KittyState := (create_kitty emptyState 1 [1]).2

/-- Counterexample to claim C3: an identifier-generating call whose
internal `mint` fails with `AlreadyExists` leaves the nonce unchanged
(still `1`), because the nonce increment sits after the `?` on `mint` and
is skipped by the early return — the claim says the nonce would still be
incremented by one (to `2`). -/
theorem c3_failed_mint_leaves_nonce :
    (create_kitty c3State 1 [1]).1 = Except.error "Kitty already exists" ∧
    c3State.nonce = 1 ∧
    (create_kitty c3State 1 [1]).2.nonce = 1 :=
  ⟨rfl, rfl, rfl⟩

/-- Claim C3 (amended): each identifier-generating call (`create_kitty`
or `breed_kitty`) increments the nonce exactly once when it succeeds, and
leaves the nonce unchanged when it fails (in particular when the internal
`mint` fails with `AlreadyExists` or a counter overflow). -/
theorem c3_nonce_increment_on_success (s : KittyState) (sender : AccountId)
    (randomHash kittyId1 kittyId2 : Hash) :
    ((create_kitty s sender randomHash).2.nonce =
      if (create_kitty s sender randomHash).1.toBool then s.nonce + 1 else s.nonce) ∧
    ((breed_kitty s sender kittyId1 kittyId2 randomHash).2.nonce =
      if (breed_kitty s sender kittyId1 kittyId2 randomHash).1.toBool then s.nonce + 1
      else s.nonce) := by
  constructor
  · rcases hm : mint s sender randomHash
        { id := randomHash, dna := randomHash, price := 0, gen := 0 } with ⟨r, s1⟩
    have hn : s1.nonce = s.nonce := by
      have h := mint_nonce s sender randomHash
        { id := randomHash, dna := randomHash, price := 0, gen := 0 }
      rw [hm] at h
      exact h
    cases r with
    | error e => simp [create_kitty, hm, hn, Except.toBool]
    | ok u => simp [create_kitty, hm, hn, Except.toBool]
  · rcases hk1 : s.kitties kittyId1 with _ | k1
    · simp [breed_kitty, hk1, Except.toBool]
    · rcases hk2 : s.kitties kittyId2 with _ | k2
      · simp [breed_kitty, hk1, hk2, Except.toBool]
      · rcases hm : mint s sender randomHash
            { id := randomHash
              dna := spliceDna (getKitty s kittyId1).dna (getKitty s kittyId2).dna randomHash
              price := 0
              gen := max (getKitty s kittyId1).gen (getKitty s kittyId2).gen + 1 }
          with ⟨r, s1⟩
        have hn : s1.nonce = s.nonce := by
          have h := mint_nonce s sender randomHash
            { id := randomHash
              dna := spliceDna (getKitty s kittyId1).dna (getKitty s kittyId2).dna randomHash
              price := 0
              gen := max (getKitty s kittyId1).gen (getKitty s kittyId2).gen + 1 }
          rw [hm] at h
          exact h
        cases r with
        | error e => simp [breed_kitty, hk1, hk2, hm, hn, Except.toBool]
        | ok u => simp [breed_kitty, hk1, hk2, hm, hn, Except.toBool]

/-! ## Claim C8 -/

/-- Claim C8 fails on the code: a successful mint emits no `Created`
notification — in fact `mint` emits no event at all (the
`deposit_event(RawEvent::Created(..))` line is commented out in the
source).  Concretely, a successful `create_kitty` from the empty registry
leaves the event sink empty; generally, `mint` never appends an event. -/
theorem c8_mint_emits_no_created_event :
    ((create_kitty emptyState 1 [1]).1 = Except.ok () ∧
      (create_kitty emptyState 1 [1]).2.events = []) ∧
    ∀ (s : KittyState) (toAcct : AccountId) (kittyId : Hash) (nk : Kitty),
      (mint s toAcct kittyId nk).2.events = s.events :=
  ⟨⟨rfl, rfl⟩, fun s toAcct kittyId nk => mint_events s toAcct kittyId nk⟩

/-! ## Claim C4 -/

/-- Claim C4: whenever `buy_kitty` reaches the currency-transfer step and
the external currency collaborator fails, the call returns that failure
and the registry state is exactly the state from before the call — the
owner, the stored price, and every index entry and count are untouched,
because the currency transfer is sequenced before any registry write. -/
theorem c4_buy_currency_failure_no_change
    (currencyTransfer : AccountId → AccountId → Balance → Except String Unit)
    (s : KittyState) (sender owner : AccountId) (kittyId : Hash) (maxPrice : Balance)
    (e : String)
    (hK : (s.kitties kittyId).isSome = true)
    (hOwn : s.kittyOwner kittyId = some owner)
    (hNe : owner ≠ sender)
    (hPrice : (getKitty s kittyId).price ≠ 0)
    (hMax : (getKitty s kittyId).price ≤ maxPrice)
    (hCT : currencyTransfer sender owner (getKitty s kittyId).price = Except.error e) :
    buy_kitty currencyTransfer s sender kittyId maxPrice = (DispatchOutcome.err e, s) := by
  rcases hk2 : s.kitties kittyId with _ | k
  · rw [hk2] at hK
    simp at hK
  · simp only [buy_kitty, hk2, hOwn]
    rw [if_neg hNe, if_neg hPrice, if_pos hMax, if_pos hMax, hCT]

/-- State for the C4 witness: account `1` owns kitty `[5]` priced at
`100`. -/
def c4State : KittyState :=
  { emptyState with
    kitties := upd emptyState.kitties [5] (some { id := [5], dna := [5], price := 100, gen := 0 })
    kittyOwner := upd emptyState.kittyOwner [5] (some 1) }

/-- Failing currency collaborator used by the C4 witness. -/
def c4CT : AccountId → AccountId → Balance → Except String Unit :=
  fun _ _ _ => Except.error "balance too low"

/-- Witness for C4: account `2` tries to buy kitty `[5]` (price `100`,
max price `150`) while the currency transfer fails; the call returns the
currency failure and the state is unchanged. -/
theorem c4_witness :
    (c4State.kitties [5]).isSome = true ∧
    c4State.kittyOwner [5] = some 1 ∧
    (1 : AccountId) ≠ 2 ∧
    (getKitty c4State [5]).price ≠ 0 ∧
    (getKitty c4State [5]).price ≤ 150 ∧
    c4CT 2 1 (getKitty c4State [5]).price = Except.error "balance too low" ∧
    buy_kitty c4CT c4State 2 [5] 150 = (DispatchOutcome.err "balance too low", c4State) :=
  ⟨rfl, rfl, by decide, by decide, by decide, rfl,
    c4_buy_currency_failure_no_change c4CT c4State 2 1 [5] 150 "balance too low"
      rfl rfl (by decide) (by decide) (by decide) rfl⟩

/-! ## Claim C6 -/

/-- Kitty record used by the C6 counterexample states. -/
def c6Kitty : Kitty := { id := [1], dna := [1], price := 0, gen := 0 }

/-- A registry state in which kitty `[1]` exists (record and owner entry)
but the destination owner's count sits at the `u64` maximum. -/
def c6StateA : KittyState :=
  { emptyState with
    kitties := upd emptyState.kitties [1] (some c6Kitty)
    kittyOwner := upd emptyState.kittyOwner [1] (some 1)
    ownedKittiesCount := fun _ => U64LIMIT - 1 }

/-- A registry state in which kitty `[1]` is present in the `Kitties`
record map but has no `KittyOwner` entry. -/
def c6StateB : KittyState :=
  { emptyState with kitties := upd emptyState.kitties [1] (some c6Kitty) }

/-- Counterexample to claim C6 ("mint with an identifier already present
in Storage always fails with AlreadyExists"): (a) when the destination
owner's count is at the `u64` maximum, `mint` of the already-present
identifier `[1]` fails with the overflow error — the checked count
increments run before the existence check; (b) `mint` tests existence
against `KittyOwner`, not the `Kitties` record map, so with `[1]` present
only in `Kitties` the mint succeeds outright instead of failing. -/
theorem c6_counterexample :
    ((c6StateA.kitties [1]).isSome = true ∧
      (c6StateA.kittyOwner [1]).isSome = true ∧
      (mint c6StateA 1 [1] c6Kitty).1 = Except.error "Overflow adding a new kitty") ∧
    ((c6StateB.kitties [1]).isSome = true ∧
      (mint c6StateB 1 [1] c6Kitty).1 = Except.ok ()) :=
  ⟨⟨rfl, rfl, rfl⟩, ⟨rfl, rfl⟩⟩

/-- Claim C6 (amended): in every registry state whose destination-owner
count and global count can be incremented without `u64` overflow, calling
`mint` with an identifier already present in the ownership map fails with
`AlreadyExists` and returns with the state exactly unchanged. -/
theorem c6_mint_existing_owner_fails (s : KittyState) (toAcct : AccountId)
    (kittyId : Hash) (newKitty : Kitty)
    (hEx : (s.kittyOwner kittyId).isSome = true)
    (hOwned : s.ownedKittiesCount toAcct + 1 < U64LIMIT)
    (hAll : s.allKittiesCount + 1 < U64LIMIT) :
    mint s toAcct kittyId newKitty = (Except.error "Kitty already exists", s) := by
  rcases ho : s.kittyOwner kittyId with _ | o
  · rw [ho] at hEx
    simp at hEx
  · simp only [mint, checkedAdd1, if_pos hOwned, if_pos hAll, ho]

/-- State for the C6 witness: account `4` owns kitty `[3]`. -/
def c6WState : KittyState :=
  { emptyState with
    kitties := upd emptyState.kitties [3] (some { id := [3], dna := [3], price := 0, gen := 0 })
    kittyOwner := upd emptyState.kittyOwner [3] (some 4) }

/-- Witness for the amended C6: re-minting the existing identifier `[3]`
fails with `AlreadyExists` and leaves the state unchanged. -/
theorem c6_witness :
    (c6WState.kittyOwner [3]).isSome = true ∧
    c6WState.ownedKittiesCount 4 + 1 < U64LIMIT ∧
    c6WState.allKittiesCount + 1 < U64LIMIT ∧
    mint c6WState 4 [3] { id := [3], dna := [3], price := 0, gen := 0 } =
      (Except.error "Kitty already exists", c6WState) :=
  ⟨rfl, by decide, by decide,
    c6_mint_existing_owner_fails c6WState 4 [3]
      { id := [3], dna := [3], price := 0, gen := 0 } rfl (by decide) (by decide)⟩

/-! ## Claim C7 -/

/-- Claim C7: a `transfer` whose caller is not the owner of the (owned)
token fails with the `NotOwner` error and returns with the state exactly
unchanged — in particular the counts, forward maps, inverse maps of both
the caller and the named destination, and the ownership map. -/
theorem c7_transfer_not_owner (s : KittyState) (sender toAcct owner : AccountId)
    (kittyId : Hash)
    (hOwn : s.kittyOwner kittyId = some owner)
    (hNe : owner ≠ sender) :
    transfer s sender toAcct kittyId = (Except.error "You do not own this kitty", s) := by
  simp only [transfer, hOwn]
  rw [if_neg hNe]

/-- State for the C7 witness: account `7` owns kitty `[2]`. -/
def c7State : KittyState :=
  { emptyState with
    kitties := upd emptyState.kitties [2] (some { id := [2], dna := [2], price := 0, gen := 0 })
    kittyOwner := upd emptyState.kittyOwner [2] (some 7) }

/-- Witness for C7: account `8` (not the owner) tries to transfer kitty
`[2]` to account `9`; the call fails with the not-owner error and the
state is unchanged. -/
theorem c7_witness :
    c7State.kittyOwner [2] = some 7 ∧
    (7 : AccountId) ≠ 8 ∧
    transfer c7State 8 9 [2] = (Except.error "You do not own this kitty", c7State) :=
  ⟨rfl, by decide, c7_transfer_not_owner c7State 8 9 7 [2] rfl (by decide)⟩

/-! ## Claim C5 -/

/-- Claim C5: a successful `breed_kitty` on two existing parents stores a
child whose generation is `max(gen1, gen2) + 1` and whose DNA byte at
every position is parent 2's byte when the corresponding byte of the
fresh random value is even and parent 1's byte otherwise (the parents'
DNA payloads and the random value being equal-width hash values). -/
theorem c5_breed_child_gen_and_dna (s : KittyState) (sender : AccountId)
    (kittyId1 kittyId2 randomHash : Hash) (k1 k2 : Kitty)
    (h1 : s.kitties kittyId1 = some k1)
    (h2 : s.kitties kittyId2 = some k2)
    (hl1 : k1.dna.length = randomHash.length)
    (hl2 : k2.dna.length = randomHash.length)
    (hOk : (breed_kitty s sender kittyId1 kittyId2 randomHash).1 = Except.ok ()) :
    ∃ child : Kitty,
      (breed_kitty s sender kittyId1 kittyId2 randomHash).2.kitties randomHash =
        some child ∧
      child.gen = max k1.gen k2.gen + 1 ∧
      ∀ i, i < randomHash.length →
        child.dna.get? i =
          if (randomHash.get? i).getD 1 % 2 = 0 then k2.dna.get? i else k1.dna.get? i := by
  have hg1 : getKitty s kittyId1 = k1 := by simp [getKitty, h1]
  have hg2 : getKitty s kittyId2 = k2 := by simp [getKitty, h2]
  rcases hm : mint s sender randomHash
      { id := randomHash
        dna := spliceDna k1.dna k2.dna randomHash
        price := 0
        gen := max k1.gen k2.gen + 1 } with ⟨r, s1⟩
  simp only [breed_kitty, h1, h2, hg1, hg2, hm] at hOk ⊢
  cases r with
  | error e => simp at hOk
  | ok u =>
    refine ⟨{ id := randomHash
              dna := spliceDna k1.dna k2.dna randomHash
              price := 0
              gen := max k1.gen k2.gen + 1 }, ?_, rfl, ?_⟩
    · have h := mint_ok_kitty s sender randomHash
        { id := randomHash
          dna := spliceDna k1.dna k2.dna randomHash
          price := 0
          gen := max k1.gen k2.gen + 1 } (by rw [hm])
      rw [hm] at h
      exact h
    · exact spliceDna_get k1.dna k2.dna randomHash hl1 hl2

/-- Parent 1 for the C5 witness: generation `2`, DNA `[10, 11]`. -/
def c5Parent1 : Kitty := { id := [7], dna := [10, 11], price := 0, gen := 2 }

/-- Parent 2 for the C5 witness: generation `5`, DNA `[20, 21]`. -/
def c5Parent2 : Kitty := { id := [8], dna := [20, 21], price := 0, gen := 5 }

/-- Registry state holding the two C5 parents. -/
def c5WState : KittyState :=
  { emptyState with
    kitties := upd (upd emptyState.kitties [7] (some c5Parent1)) [8] (some c5Parent2) }

/-- Witness for C5, the golden-value regression of the spec: breeding
parents of generations `2` and `5` with random value `[2, 3]` succeeds
and yields a child of generation `6` whose DNA takes parent 2's byte at
position 0 (random byte `2` is even) and parent 1's byte at position 1
(random byte `3` is odd). -/
theorem c5_witness :
    c5WState.kitties [7] = some c5Parent1 ∧
    c5WState.kitties [8] = some c5Parent2 ∧
    c5Parent1.dna.length = ([2, 3] : Hash).length ∧
    c5Parent2.dna.length = ([2, 3] : Hash).length ∧
    (breed_kitty c5WState 9 [7] [8] [2, 3]).1 = Except.ok () ∧
    (∃ child : Kitty,
      (breed_kitty c5WState 9 [7] [8] [2, 3]).2.kitties [2, 3] = some child ∧
      child.gen = 6 ∧
      ∀ i, i < ([2, 3] : Hash).length →
        child.dna.get? i =
          if (([2, 3] : Hash).get? i).getD 1 % 2 = 0 then c5Parent2.dna.get? i
          else c5Parent1.dna.get? i) := by
  refine ⟨rfl, rfl, rfl, rfl, rfl, ?_⟩
  exact c5_breed_child_gen_and_dna c5WState 9 [7] [8] [2, 3] c5Parent1 c5Parent2
    rfl rfl rfl rfl rfl

/-! ## Claim C9 -/

/-- Claim C9 (frame property of `set_price`): a successful
`set_price(caller, token, new_price)` changes only the stored price of
that one token — its `id`, `dna` and `gen` fields are kept, every other
token's record is untouched, and the ownership map, both owner-index
structures, both global-index structures, all counts and the nonce are
exactly unchanged. -/
theorem c9_set_price_frame (s : KittyState) (sender : AccountId) (kittyId : Hash)
    (newPrice : Balance)
    (hOk : (set_price s sender kittyId newPrice).1 = Except.ok ()) :
    (set_price s sender kittyId newPrice).2.kitties kittyId =
      some { getKitty s kittyId with price := newPrice } ∧
    (∀ h2 : Hash, h2 ≠ kittyId →
      (set_price s sender kittyId newPrice).2.kitties h2 = s.kitties h2) ∧
    (set_price s sender kittyId newPrice).2.kittyOwner = s.kittyOwner ∧
    (set_price s sender kittyId newPrice).2.allKittiesArray = s.allKittiesArray ∧
    (set_price s sender kittyId newPrice).2.allKittiesCount = s.allKittiesCount ∧
    (set_price s sender kittyId newPrice).2.allKittiesIndex = s.allKittiesIndex ∧
    (set_price s sender kittyId newPrice).2.ownedKittiesArray = s.ownedKittiesArray ∧
    (set_price s sender kittyId newPrice).2.ownedKittiesCount = s.ownedKittiesCount ∧
    (set_price s sender kittyId newPrice).2.ownedKittiesIndex = s.ownedKittiesIndex ∧
    (set_price s sender kittyId newPrice).2.nonce = s.nonce := by
  rcases hk : s.kitties kittyId with _ | k
  · simp [set_price, hk] at hOk
  · rcases ho : s.kittyOwner kittyId with _ | o
    · simp [set_price, hk, ho] at hOk
    · by_cases hos : o = sender
      · simp only [set_price, hk, ho, if_pos hos]
        refine ⟨?_, ?_, ?_, ?_, ?_, ?_, ?_, ?_, ?_, ?_⟩
        · simp [upd]
        · intro h2 hne
          simp [upd, hne]
        all_goals trivial
      · simp [set_price, hk, ho, if_neg hos] at hOk

/-- State for the C9 witness: one kitty `[1]` created by account `1`. -/
def c9WState : KittyState := (create_kitty emptyState 1 [1]).2

/-- Witness for C9: account `1` successfully sets the price of its kitty
`[1]` to `42`; only that kitty's price field changes. -/
theorem c9_witness :
    (set_price c9WState 1 [1] 42).1 = Except.ok () ∧
    ((set_price c9WState 1 [1] 42).2.kitties [1] =
        some { getKitty c9WState [1] with price := 42 } ∧
      (∀ h2 : Hash, h2 ≠ [1] →
        (set_price c9WState 1 [1] 42).2.kitties h2 = c9WState.kitties h2) ∧
      (set_price c9WState 1 [1] 42).2.kittyOwner = c9WState.kittyOwner ∧
      (set_price c9WState 1 [1] 42).2.allKittiesArray = c9WState.allKittiesArray ∧
      (set_price c9WState 1 [1] 42).2.allKittiesCount = c9WState.allKittiesCount ∧
      (set_price c9WState 1 [1] 42).2.allKittiesIndex = c9WState.allKittiesIndex ∧
      (set_price c9WState 1 [1] 42).2.ownedKittiesArray = c9WState.ownedKittiesArray ∧
      (set_price c9WState 1 [1] 42).2.ownedKittiesCount = c9WState.ownedKittiesCount ∧
      (set_price c9WState 1 [1] 42).2.ownedKittiesIndex = c9WState.ownedKittiesIndex ∧
      (set_price c9WState 1 [1] 42).2.nonce = c9WState.nonce) :=
  ⟨rfl, c9_set_price_frame c9WState 1 [1] 42 rfl⟩

/-! ## Claim C10 -/

/-- Kitty used by the C10 counterexample: priced at `10`. -/
def c10Kitty : Kitty := { id := [5], dna := [5], price := 10, gen := 0 }

/-- A registry state satisfying the three preconditions listed by claim
C10 — account `1` owns kitty `[5]`, the buyer (`2`) is not the owner, the
buyer's count is below the `u64` maximum — but in which the owner's
owned-kitty count is `0`. -/
def c10State : KittyState :=
  { emptyState with
    kitties := upd emptyState.kitties [5] (some c10Kitty)
    kittyOwner := upd emptyState.kittyOwner [5] (some 1) }

/-- Always-succeeding currency collaborator for the C10 counterexample. -/
def c10CT : AccountId → AccountId → Balance → Except String Unit :=
  fun _ _ _ => Except.ok ()

/-- Counterexample to claim C10: the three listed preconditions (buyer
count strictly below the `u64` maximum, buyer not the owner, owner owns
the token) do not make the `expect` on `transfer_from` unreachable — in a
state where the owner's owned-kitty count is `0`, the currency transfer
succeeds and then `transfer_from` fails with the count underflow, so
`buy_kitty` aborts via the panic. -/
theorem c10_counterexample :
    c10State.kittyOwner [5] = some 1 ∧
    (2 : AccountId) ≠ 1 ∧
    c10State.ownedKittiesCount 2 + 1 < U64LIMIT ∧
    c10State.ownedKittiesCount 1 = 0 ∧
    (buy_kitty c10CT c10State 2 [5] 100).1 = DispatchOutcome.trap :=
  ⟨rfl, by decide, by decide, rfl, rfl⟩

/-- Claim C10 (amended): once the owner's owned-kitty count is also known
to be nonzero — the fact the source's `expect` comment derives from
ownership via the registry invariant — the unwrap is indeed unreachable:
under buyer count strictly below the `u64` maximum, buyer distinct from
the owner, the owner owning the token, and owner count at least one,
`buy_kitty` never aborts via the panic. -/
theorem c10_buy_no_trap_with_owner_count
    (currencyTransfer : AccountId → AccountId → Balance → Except String Unit)
    (s : KittyState) (sender owner : AccountId) (kittyId : Hash) (maxPrice : Balance)
    (hOwn : s.kittyOwner kittyId = some owner)
    (hNe : owner ≠ sender)
    (hBuyer : s.ownedKittiesCount sender + 1 < U64LIMIT)
    (hOwnerCnt : s.ownedKittiesCount owner ≠ 0) :
    (buy_kitty currencyTransfer s sender kittyId maxPrice).1 ≠ DispatchOutcome.trap := by
  obtain ⟨s1, hTF⟩ := transfer_from_ok s owner sender kittyId hOwn hBuyer hOwnerCnt
  rcases hk : s.kitties kittyId with _ | k
  · simp [buy_kitty, hk]
  · simp only [buy_kitty, hk, hOwn]
    rw [if_neg hNe]
    by_cases hp0 : (getKitty s kittyId).price = 0
    · simp [hp0]
    · rw [if_neg hp0]
      by_cases hmp : (getKitty s kittyId).price ≤ maxPrice
      · rw [if_pos hmp, if_pos hmp]
        rcases hct : currencyTransfer sender owner (getKitty s kittyId).price with e | u
        · simp [hct]
        · simp [hct, hTF]
      · rw [if_neg hmp]
        simp

/-- State for the C10 witness: account `1` owns kitty `[5]` (count `1`,
the token at position `0`), priced at `10`. -/
def c10WState : KittyState :=
  { emptyState with
    kitties := upd emptyState.kitties [5] (some c10Kitty)
    kittyOwner := upd emptyState.kittyOwner [5] (some 1)
    ownedKittiesArray := upd emptyState.ownedKittiesArray (1, 0) (some [5])
    ownedKittiesCount := upd emptyState.ownedKittiesCount 1 1 }

/-- Witness for the amended C10: with the owner's count equal to `1`,
account `2` buying kitty `[5]` does not hit the panic. -/
theorem c10_witness :
    c10WState.kittyOwner [5] = some 1 ∧
    (1 : AccountId) ≠ 2 ∧
    c10WState.ownedKittiesCount 2 + 1 < U64LIMIT ∧
    c10WState.ownedKittiesCount 1 ≠ 0 ∧
    (buy_kitty c10CT c10WState 2 [5] 100).1 ≠ DispatchOutcome.trap :=
  ⟨rfl, by decide, by decide, by decide,
    c10_buy_no_trap_with_owner_count c10CT c10WState 2 1 [5] 100
      rfl (by decide) (by decide) (by decide)⟩

end SubstrateKitties
